import Mathlib

/-!
Shallow embedding of the `sciencedirect-agent` repository
(`src/sciencedirect.py`, `src/agent.py`) in Lean 4, used to settle the
claims about its natural-language specification.

JSON documents are modelled by the inductive `Json`; numbers are modelled
as integers (no claim involves numeric JSON values).  Python exceptions are
modelled by `Except String` with a short tag naming the Python exception
class (the full human-readable message text is abstracted).  Pydantic
validation of the `Article` model is modelled by `mkArticle`, which checks
that each field value has the declared Python type (`str`, `List[str]`,
`Optional[str]`).
-/

/-- A JSON value as produced by `response.json()` in Python: `null` maps to
Python `None`, objects to `dict`, arrays to `list`. -/
inductive Json where
| null : Json
| bool (b : Bool) : Json
| num (n : Int) : Json
| str (s : String) : Json
| arr (xs : List Json) : Json
| obj (fields : List (String × Json)) : Json

/-- Python truthiness (`if creator:`, `if not abstract:`, ...) for the JSON
values that can appear: `None`, `False`, `0`, `""`, `[]`, and the empty dict
are falsy, everything else is truthy. -/
def Json.truthy : Json → Bool
| .null => false
| .bool b => b
| .num n => n != 0
| .str s => s != ""
| .arr xs => !xs.isEmpty
| .obj fs => !fs.isEmpty

/-- `dict.get(key, default)`: the first binding of `key`, or `default`. -/
def Json.getD (fs : List (String × Json)) (key : String) (dflt : Json) : Json :=
  match fs.lookup key with
  | some v => v
  | none => dflt

/-- Single-quote character, used by the Python `repr` of strings. -/
def squote : String := String.singleton (Char.ofNat 39)

mutual
/-- Python `repr` of a JSON value (as used inside the `repr` of containers). -/
def pyRepr : Json → String
| .null => "None"
| .bool true => "True"
| .bool false => "False"
| .num n => toString n
| .str s => squote ++ s ++ squote
| .arr xs => "[" ++ pyReprList xs ++ "]"
| .obj fs => "\x7b" ++ pyReprFields fs ++ "\x7d"

/-- Comma-separated `repr`s of list elements. -/
def pyReprList : List Json → String
| [] => ""
| [x] => pyRepr x
| x :: xs => pyRepr x ++ ", " ++ pyReprList xs

/-- Comma-separated `repr`s of dict entries. -/
def pyReprFields : List (String × Json) → String
| [] => ""
| [(k, v)] => squote ++ k ++ squote ++ ": " ++ pyRepr v
| (k, v) :: fs => squote ++ k ++ squote ++ ": " ++ pyRepr v ++ ", " ++ pyReprFields fs
end

/-- Python `str(x)`: the value itself for strings, `repr` otherwise. -/
def pyStr : Json → String
| .str s => s
| j => pyRepr j

/-- The `Article` pydantic model (`sciencedirect.py`, lines 15-24):
`title: str`, `authors: List[str]`, the remaining six fields
`Optional[str]` defaulting to `None`. -/
structure Article where
  title : String
  authors : List String
  abstract : Option String
  doi : Option String
  pii : Option String
  publication_name : Option String
  publication_date : Option String
  url : Option String
deriving DecidableEq

/-- Pydantic validation of a `str` field: only a JSON string is accepted. -/
def validateStr : Json → Except String String
| .str s => .ok s
| _ => .error "ValidationError"

/-- Pydantic validation of an `Optional[str]` field: `None` or a string. -/
def validateOptStr : Json → Except String (Option String)
| .null => .ok none
| .str s => .ok (some s)
| _ => .error "ValidationError"

/-- Pydantic validation of a `List[str]` field, element by element. -/
def validateStrList : List Json → Except String (List String)
| [] => .ok []
| x :: xs =>
  match validateStr x, validateStrList xs with
  | .ok s, .ok ss => .ok (s :: ss)
  | .error e, _ => .error e
  | _, .error e => .error e

/-- Construction `Article(title=..., authors=..., ...)`: pydantic validates
every keyword argument against its declared type and raises
`ValidationError` on mismatch. -/
def mkArticle (titleRaw : Json) (authorsRaw : List Json)
    (abstractRaw doiRaw piiRaw pubNameRaw pubDateRaw urlRaw : Json) :
    Except String Article :=
  match validateStr titleRaw, validateStrList authorsRaw,
        validateOptStr abstractRaw, validateOptStr doiRaw,
        validateOptStr piiRaw, validateOptStr pubNameRaw,
        validateOptStr pubDateRaw, validateOptStr urlRaw with
  | .ok t, .ok au, .ok ab, .ok d, .ok p, .ok pn, .ok pd, .ok u =>
    .ok ⟨t, au, ab, d, p, pn, pd, u⟩
  | _, _, _, _, _, _, _, _ => .error "ValidationError"

/-- `_extract_authors(entry)` (`sciencedirect.py`, lines 212-223), given the
bindings of the entry dict.  `creator = entry.get("dc:creator")`; when truthy,
a string is appended as-is and a list is extended element by element
(elements are NOT converted or filtered: dict elements stay dicts). -/
def extractAuthors (fs : List (String × Json)) : List Json :=
  let creator := Json.getD fs "dc:creator" .null
  if creator.truthy then
    match creator with
    | .str s => [.str s]
    | .arr xs => xs
    | _ => []
  else []

/-- `_extract_authors_from_article(core_data)` (`sciencedirect.py`, lines
225-241), given the bindings of the core-data dict: a dict creator yields its
`"$"` text, a list yields per element the `"$"` text of a dict or `str(c)`
otherwise, a truthy scalar yields `str(creator)`; empty entries are filtered
out (`[a for a in authors if a]`). -/
def extractAuthorsFromArticle (cds : List (String × Json)) : List Json :=
  let creator := Json.getD cds "dc:creator" .null
  let authors : List Json :=
    match creator with
    | .obj gs => [Json.getD gs "$" (.str "")]
    | .arr cs =>
      cs.map (fun c =>
        match c with
        | .obj gs => Json.getD gs "$" (.str "")
        | _ => .str (pyStr c))
    | _ => if creator.truthy then [.str (pyStr creator)] else []
  authors.filter Json.truthy

/-- The url expression
`entry.get("link", [dicts])[0].get("@href") if entry.get("link") else None`
(`sciencedirect.py`, lines 181 and 209).  When the `link` value is falsy the
url is `None`; otherwise the first list element's `"@href"` is looked up.
A truthy non-list `link`, or a first element that is not a dict, makes
Python raise (`TypeError`/`KeyError`/`AttributeError`). -/
def extractUrl (fs : List (String × Json)) : Except String Json :=
  let link := Json.getD fs "link" .null
  if link.truthy then
    match link with
    | .arr (first :: _) =>
      match first with
      | .obj gs => .ok (Json.getD gs "@href" .null)
      | _ => .error "AttributeError"
    | _ => .error "TypeError"
  else .ok .null

/-- The body of the `for entry in entries` loop of `_parse_search_results`
(`sciencedirect.py`, lines 172-183): build one `Article` from one entry.
A non-dict entry makes `entry.get` raise `AttributeError`. -/
def parseEntry : Json → Except String Article
| .obj fs =>
  (match extractUrl fs with
  | .error e => .error e
  | .ok urlRaw =>
    mkArticle (Json.getD fs "dc:title" (.str "No title"))
      (extractAuthors fs)
      (Json.getD fs "prism:teaser" (Json.getD fs "dc:description" .null))
      (Json.getD fs "prism:doi" .null)
      (Json.getD fs "pii" .null)
      (Json.getD fs "prism:publicationName" .null)
      (Json.getD fs "prism:coverDate" .null)
      urlRaw)
| _ => .error "AttributeError"

/-- The `for entry in entries` loop: articles are appended in order and the
first exception aborts the whole parse. -/
def parseEntries : List Json → Except String (List Article)
| [] => .ok []
| e :: es =>
  match parseEntry e, parseEntries es with
  | .ok a, .ok as => .ok (a :: as)
  | .error err, _ => .error err
  | _, .error err => .error err

/-- `_parse_search_results(data)` (`sciencedirect.py`, lines 165-185):
`data.get("search-results", dict())` then `.get("entry", list())`, then the
entry loop.  Iterating a non-list `entry` value: an empty dict or empty
string yields no iterations (result `[]`); a non-empty dict or string yields
non-dict loop variables, so `entry.get` raises; other values are not
iterable. -/
def parseSearchResults (data : Json) : Except String (List Article) :=
  match data with
  | .obj ds =>
    (match Json.getD ds "search-results" (.obj []) with
    | .obj srs =>
      (match Json.getD srs "entry" (.arr []) with
      | .arr es => parseEntries es
      | .obj [] => .ok []
      | .str "" => .ok []
      | .obj (_ :: _) => .error "AttributeError"
      | .str _ => .error "AttributeError"
      | _ => .error "TypeError")
    | _ => .error "AttributeError")
  | _ => .error "AttributeError"

/-- The abstract extraction from `originalText` (`sciencedirect.py`, lines
192-196): when `original_text` is a dict, follow
`.get("xocs:doc", dict()).get("xocs:serial-item", dict()).get("xocs:raw-text", "")`;
otherwise the abstract stays `None`.  An inner non-dict value makes `.get`
raise `AttributeError`. -/
def abstractFromOriginalText : Json → Except String Json
| .obj ots =>
  (match Json.getD ots "xocs:doc" (.obj []) with
  | .obj docs =>
    (match Json.getD docs "xocs:serial-item" (.obj []) with
    | .obj sis => .ok (Json.getD sis "xocs:raw-text" (.str ""))
    | _ => .error "AttributeError")
  | _ => .error "AttributeError")
| _ => .ok Json.null

/-- `_parse_article(data)` (`sciencedirect.py`, lines 187-210):
`data.get("full-text-retrieval-response", dict())`, its `coredata` and
`originalText`, the abstract with its `if not abstract:` fallback to
`core_data.get("dc:description")`, then the `Article(...)` construction. -/
def parseArticle (data : Json) : Except String Article :=
  match data with
  | .obj ds =>
    (match Json.getD ds "full-text-retrieval-response" (.obj []) with
    | .obj ads =>
      (match abstractFromOriginalText (Json.getD ads "originalText" (.obj [])) with
      | .error e => .error e
      | .ok abstract0 =>
        (match Json.getD ads "coredata" (.obj []) with
        | .obj cds =>
          let abstractRaw :=
            if abstract0.truthy then abstract0
            else Json.getD cds "dc:description" .null
          (match extractUrl cds with
          | .error e => .error e
          | .ok urlRaw =>
            mkArticle (Json.getD cds "dc:title" (.str "No title"))
              (extractAuthorsFromArticle cds)
              abstractRaw
              (Json.getD cds "prism:doi" .null)
              (Json.getD cds "pii" .null)
              (Json.getD cds "prism:publicationName" .null)
              (Json.getD cds "prism:coverDate" .null)
              urlRaw)
        | _ => .error "AttributeError"))
    | _ => .error "AttributeError")
  | _ => .error "AttributeError"

/-- The query parameters built by `search_articles` (`sciencedirect.py`,
lines 72-76): `query`, `count = min(limit, 200)` ("API max is 200"), and
`httpAccept`. -/
structure SearchParams where
  query : String
  count : Int
  httpAccept : String
deriving DecidableEq

/-- `params = . . .` in `search_articles` (`sciencedirect.py`, lines 72-76). -/
def mkSearchParams (query : String) (limit : Int) : SearchParams :=
  { query := query, count := min limit 200, httpAccept := "application/json" }

/-- The distinct `raise ValueError(...)` sites of the client, one constructor
per raise statement, carrying the data interpolated into the message:
`invalidApiKey` = line 108 (search, HTTP 401), `rateLimited` = line 110
(search, HTTP 429), `searchRequestFailed` = line 112 (search, other non-2xx),
`searchFailed` = line 115 (search, non-HTTP exception), `notFound` =
line 158 (get_article, HTTP 404), `retrievalFailed` = line 160 (get_article,
other non-2xx), `articleRetrievalFailed` = line 163 (get_article, non-HTTP
exception). -/
inductive SdError where
| invalidApiKey : SdError
| rateLimited : SdError
| searchRequestFailed (status : Int) : SdError
| searchFailed (msg : String) : SdError
| notFound (pii : String) : SdError
| retrievalFailed (status : Int) : SdError
| articleRetrievalFailed (msg : String) : SdError
deriving DecidableEq

/-- An upstream HTTP response, abstracted to its status code and decoded
JSON body. -/
structure HttpResponse where
  statusCode : Int
  body : Json

/-- `response.raise_for_status()` raises `httpx.HTTPStatusError` exactly for
non-2xx status codes. -/
def is2xx (status : Int) : Bool := 200 ≤ status && status < 300

/-- `search_articles` (`sciencedirect.py`, lines 61-115) as a function of the
upstream response: on a 2xx response the body is parsed (a parse exception is
caught by `except Exception` and re-raised as `ValueError("Search failed: ...")`);
a non-2xx response is mapped by the `except httpx.HTTPStatusError` branch:
401 to the invalid-key error, 429 to the rate-limit error, anything else to
the generic request failure. -/
def searchArticlesResult (resp : HttpResponse) : Except SdError (List Article) :=
  if is2xx resp.statusCode then
    match parseSearchResults resp.body with
    | .ok articles => .ok articles
    | .error e => .error (.searchFailed e)
  else if resp.statusCode = 401 then .error .invalidApiKey
  else if resp.statusCode = 429 then .error .rateLimited
  else .error (.searchRequestFailed resp.statusCode)

/-- `get_article` (`sciencedirect.py`, lines 117-163) as a function of the
upstream response: on a 2xx response the body is parsed (a parse exception is
re-raised as `ValueError("Article retrieval failed: ...")`); a non-2xx
response is mapped by the `except httpx.HTTPStatusError` branch: 404 to the
not-found error carrying the requested PII, anything else to the generic
retrieval failure. -/
def getArticleResult (pii : String) (resp : HttpResponse) : Except SdError Article :=
  if is2xx resp.statusCode then
    match parseArticle resp.body with
    | .ok a => .ok a
    | .error e => .error (.articleRetrievalFailed e)
  else if resp.statusCode = 404 then .error (.notFound pii)
  else .error (.retrievalFailed resp.statusCode)

/-- The relevant environment variables read by `ScienceDirectClient.__init__`
via `os.getenv` (`None` when unset). -/
structure PyEnv where
  elsevierApiKey : Option String
  elsevierAuthToken : Option String
  elsevierInstToken : Option String
  debugVar : Option String

/-- Python `a or b` on optional strings: `a` when truthy (`Some` of a
non-empty string), otherwise `b`. -/
def pyOrStr (a b : Option String) : Option String :=
  match a with
  | some s => if s ≠ "" then some s else b
  | none => b

/-- Truthiness of `self.api_key` and the token attributes. -/
def strTruthy : Option String → Bool
| some s => s != ""
| none => false

/-- The state a successfully constructed `ScienceDirectClient` holds. -/
structure ClientState where
  apiKey : String
  authToken : Option String
  instToken : Option String
  debugFlag : Bool
  headers : List (String × String)

/-- `ScienceDirectClient.__init__` (`sciencedirect.py`, lines 34-52):
each credential falls back to its environment variable; a missing (or empty)
API key raises `ValueError("Elsevier API key is required. ...")` before the
headers are built; the two optional token headers are added only when the
token is truthy.  The constructor performs no network request: its result
depends only on its arguments and the environment. -/
def clientInit (apiKeyArg authTokenArg instTokenArg : Option String)
    (debugArg : Bool) (env : PyEnv) : Except String ClientState :=
  let apiKey := pyOrStr apiKeyArg env.elsevierApiKey
  let authToken := pyOrStr authTokenArg env.elsevierAuthToken
  let instToken := pyOrStr instTokenArg env.elsevierInstToken
  let dbg := debugArg ||
    (let d := ((env.debugVar).getD "").toLower
     d == "true" || d == "1" || d == "yes")
  match apiKey with
  | none => .error "Elsevier API key is required. Set ELSEVIER_API_KEY in .env"
  | some k =>
    if k = "" then .error "Elsevier API key is required. Set ELSEVIER_API_KEY in .env"
    else
      .ok { apiKey := k, authToken := authToken, instToken := instToken,
            debugFlag := dbg,
            headers := [("X-ELS-APIKey", k), ("Accept", "application/json")]
              ++ (if strTruthy authToken then [("X-ELS-Authtoken", authToken.getD "")] else [])
              ++ (if strTruthy instToken then [("X-ELS-Insttoken", instToken.getD "")] else []) }

/-- The `ResearchResponse` pydantic model (`agent.py`, lines 21-25). -/
structure ResearchResponse where
  answer : String
  articles : List Article
  summary : String
deriving DecidableEq

/-- The fallback response built in the `except` branch of
`answer_research_question` (`agent.py`, lines 138-143). -/
def fallbackResponse (errMsg : String) : ResearchResponse :=
  { answer := "I encountered an error while researching: " ++ errMsg,
    articles := [],
    summary := "Unable to complete the research due to an error." }

/-- `answer_research_question` (`agent.py`, lines 98-143) as a function of
the client-construction outcome and the agent-run outcome.  The client is
constructed at line 119, OUTSIDE the `try` block that begins at line 131, so
a construction failure propagates; only a failure of `research_agent.run`
is downgraded to the fallback response. -/
def answerResearchQuestion (apiKeyArg instTokenArg : Option String)
    (debugArg : Bool) (env : PyEnv)
    (agentRun : Except String ResearchResponse) : Except String ResearchResponse :=
  match clientInit apiKeyArg none instTokenArg debugArg env with
  | .error e => .error e
  | .ok _ =>
    match agentRun with
    | .ok r => .ok r
    | .error e => .ok (fallbackResponse e)

/-- The `search_articles` agent tool (`agent.py`, lines 52-73) as a function
of the client call's outcome: `try: return await client.search_articles(...)
except Exception: return []`. -/
def searchArticlesTool (clientResult : Except SdError (List Article)) : List Article :=
  match clientResult with
  | .ok articles => articles
  | .error _ => []

/-- The `get_article_details` agent tool (`agent.py`, lines 76-95) as a
function of the client call's outcome: `try: return await client.get_article(pii)
except Exception: return None`. -/
def getArticleDetailsTool (clientResult : Except SdError Article) : Option Article :=
  match clientResult with
  | .ok a => some a
  | .error _ => none

/-- A search envelope holding a single entry with the given dict bindings. -/
def entryEnv (fs : List (String × Json)) : Json :=
  .obj [("search-results", .obj [("entry", .arr [.obj fs])])]

/-- A full-text envelope with the given core-data bindings and an
`originalText` chain whose `xocs:raw-text` is the given string. -/
def articleEnvRaw (cds : List (String × Json)) (raw : String) : Json :=
  .obj [("full-text-retrieval-response", .obj
    [("coredata", .obj cds),
     ("originalText", .obj [("xocs:doc", .obj
       [("xocs:serial-item", .obj [("xocs:raw-text", .str raw)])])])])]

theorem mkArticle_ok_fields {titleRaw : Json} {authorsRaw : List Json}
    {abstractRaw doiRaw piiRaw pubNameRaw pubDateRaw urlRaw : Json} {a : Article}
    (h : mkArticle titleRaw authorsRaw abstractRaw doiRaw piiRaw pubNameRaw pubDateRaw urlRaw = .ok a) :
    validateStr titleRaw = .ok a.title ∧
    validateStrList authorsRaw = .ok a.authors ∧
    validateOptStr abstractRaw = .ok a.abstract ∧
    validateOptStr doiRaw = .ok a.doi ∧
    validateOptStr piiRaw = .ok a.pii ∧
    validateOptStr pubNameRaw = .ok a.publication_name ∧
    validateOptStr pubDateRaw = .ok a.publication_date ∧
    validateOptStr urlRaw = .ok a.url := by
  unfold mkArticle at h
  split at h
  · injection h with h
    subst h
    simp_all
  · simp at h

theorem parseEntry_ok_fields {fs : List (String × Json)} {a : Article}
    (h : parseEntry (.obj fs) = .ok a) :
    ∃ urlRaw, extractUrl fs = .ok urlRaw ∧
      validateStr (Json.getD fs "dc:title" (.str "No title")) = .ok a.title ∧
      validateStrList (extractAuthors fs) = .ok a.authors ∧
      validateOptStr (Json.getD fs "prism:teaser" (Json.getD fs "dc:description" .null)) = .ok a.abstract ∧
      validateOptStr (Json.getD fs "prism:doi" .null) = .ok a.doi ∧
      validateOptStr (Json.getD fs "pii" .null) = .ok a.pii ∧
      validateOptStr (Json.getD fs "prism:publicationName" .null) = .ok a.publication_name ∧
      validateOptStr (Json.getD fs "prism:coverDate" .null) = .ok a.publication_date ∧
      validateOptStr urlRaw = .ok a.url := by
  simp only [parseEntry] at h
  cases hu : extractUrl fs with
  | error e => rw [hu] at h; simp at h
  | ok u =>
    rw [hu] at h
    simp only [] at h
    exact ⟨u, rfl, mkArticle_ok_fields h⟩

theorem parseSearchResults_singleton {fs : List (String × Json)} {a : Article}
    (h : parseSearchResults (entryEnv fs) = .ok [a]) :
    parseEntry (.obj fs) = .ok a := by
  unfold parseSearchResults entryEnv Json.getD at h
  simp only [List.lookup] at h
  norm_num at h
  unfold parseEntries parseEntries at h
  cases hp : parseEntry (.obj fs) with
  | error e => rw [hp] at h; simp at h
  | ok b => rw [hp] at h; simp_all

/-- C1: the claim states that `_parse_search_results` via `_extract_authors`,
on an entry whose `dc:creator` is a list mixing plain strings and
objects-with-text, yields one author per element with blanks dropped.  The
code instead extends the author list with the raw elements: an
object-with-text element survives as a dict, so the `Article(...)`
construction fails pydantic validation of `authors: List[str]` (first and
second conjuncts), and a blank string element is NOT dropped (third
conjunct).  Only `_extract_authors_from_article` has the behaviour the claim
describes. -/
theorem claim1_mixed_creator_search_path :
    extractAuthors [("dc:creator", Json.arr [Json.str "Alice", Json.obj [("$", Json.str "Bob")]])]
      = [Json.str "Alice", Json.obj [("$", Json.str "Bob")]] ∧
    parseSearchResults (entryEnv
        [("dc:creator", Json.arr [Json.str "Alice", Json.obj [("$", Json.str "Bob")]])])
      = .error "ValidationError" ∧
    parseSearchResults (entryEnv [("dc:creator", Json.arr [Json.str "Alice", Json.str ""])])
      = .ok [⟨"No title", ["Alice", ""], none, none, none, none, none, none⟩] :=
  ⟨rfl, rfl, rfl⟩

/-- A literal search fixture with two entries: the first with a plain-string
creator, the second with a creator that is a list of objects-with-text. -/
def fixtureTwoEntries : Json :=
  .obj [("search-results", .obj [("entry", .arr
    [.obj [("dc:title", Json.str "Article One"), ("dc:creator", Json.str "John Smith")],
     .obj [("dc:title", Json.str "Article Two"),
           ("dc:creator", Json.arr [Json.obj [("$", Json.str "Alice Jones")],
                                    Json.obj [("$", Json.str "Bob Lee")]])]])])]

/-- The same fixture with the second creator as a list of plain strings. -/
def fixtureTwoEntriesStr : Json :=
  .obj [("search-results", .obj [("entry", .arr
    [.obj [("dc:title", Json.str "Article One"), ("dc:creator", Json.str "John Smith")],
     .obj [("dc:title", Json.str "Article Two"),
           ("dc:creator", Json.arr [Json.str "Alice Jones", Json.str "Bob Lee"])]])])]

/-- C2: the claim states that the two-entry fixture (string creator +
object-list creator) normalizes to exactly two Articles with verbatim titles
and author lists.  On the code, the second entry's dict elements reach the
`authors: List[str]` pydantic field unconverted and the whole parse raises
(first conjunct); the round trip only succeeds when the second creator is a
list of plain strings (second conjunct). -/
theorem claim2_two_entry_fixture :
    parseSearchResults fixtureTwoEntries = .error "ValidationError" ∧
    parseSearchResults fixtureTwoEntriesStr
      = .ok [⟨"Article One", ["John Smith"], none, none, none, none, none, none⟩,
             ⟨"Article Two", ["Alice Jones", "Bob Lee"], none, none, none, none, none, none⟩] :=
  ⟨rfl, rfl⟩

/-- C5: `search` called with a limit greater than 200 sends a `count` query
parameter equal to exactly 200 (`count = min(limit, 200)`). -/
theorem claim5_count_clamped_at_200 (q : String) (limit : Int) (h : 200 < limit) :
    (mkSearchParams q limit).count = 200 := by
  simp only [mkSearchParams]
  exact min_eq_right (le_of_lt h)

/-- Witness for C5 at the concrete limit 500. -/
theorem claim5_count_clamped_at_200_witness :
    (200 : Int) < 500 ∧ (mkSearchParams "heat transfer" 500).count = 200 :=
  ⟨by decide, claim5_count_clamped_at_200 "heat transfer" 500 (by decide)⟩

/-- C6: a 2xx search response whose envelope has no `entry` list, or an
empty one (with or without the `search-results` wrapper), makes `search`
return the empty article list rather than fail. -/
theorem claim6_zero_entries_ok (status : Int) (ds srs : List (String × Json))
    (h2 : is2xx status = true)
    (hsr : ds.lookup "search-results" = some (.obj srs) ∨ ds.lookup "search-results" = none)
    (hent : srs.lookup "entry" = none ∨ srs.lookup "entry" = some (.arr [])) :
    searchArticlesResult ⟨status, .obj ds⟩ = .ok [] := by
  have hparse : parseSearchResults (.obj ds) = .ok [] := by
    rcases hsr with hsr | hsr <;> rcases hent with hent | hent <;>
      simp [parseSearchResults, Json.getD, hsr, hent, parseEntries]
  simp [searchArticlesResult, h2, hparse]

/-- Witness for C6: status 200, a `search-results` wrapper with an empty
entry list. -/
theorem claim6_zero_entries_ok_witness :
    searchArticlesResult ⟨200, .obj [("search-results", .obj [("entry", Json.arr [])])]⟩ = .ok [] :=
  claim6_zero_entries_ok 200 [("search-results", .obj [("entry", Json.arr [])])]
    [("entry", Json.arr [])] rfl (Or.inl rfl) (Or.inr rfl)

/-- C7: `fetch_by_id` on an upstream 404 fails with the not-found condition
carrying the requested PII, and that condition is distinguishable from the
generic retrieval-failure condition (they are distinct error constructors,
raised with distinct messages in the code). -/
theorem claim7_notfound_on_404 (pii : String) (resp : HttpResponse)
    (h : resp.statusCode = 404) :
    getArticleResult pii resp = .error (.notFound pii) ∧
    ∀ s : Int, (SdError.notFound pii ≠ SdError.retrievalFailed s) := by
  refine ⟨?_, fun s => by simp⟩
  obtain ⟨st, body⟩ := resp
  simp only at h
  subst h
  rfl

/-- Witness for C7 at a concrete 404 response. -/
theorem claim7_notfound_on_404_witness :
    getArticleResult "S0000" ⟨404, Json.obj []⟩ = .error (.notFound "S0000") ∧
    ∀ s : Int, (SdError.notFound "S0000" ≠ SdError.retrievalFailed s) :=
  claim7_notfound_on_404 "S0000" ⟨404, Json.obj []⟩ rfl

/-- C8: constructing the client with no `api_key` argument and no
`ELSEVIER_API_KEY` in the environment fails with the configuration error,
whatever the other arguments and environment variables are.  The constructor
is a pure function of its arguments and the environment — no network request
is involved in producing this failure. -/
theorem claim8_missing_api_key_fails (authTokenArg instTokenArg : Option String)
    (dbg : Bool) (env : PyEnv) (hkey : env.elsevierApiKey = none) :
    clientInit none authTokenArg instTokenArg dbg env
      = .error "Elsevier API key is required. Set ELSEVIER_API_KEY in .env" := by
  simp [clientInit, pyOrStr, hkey]

/-- Witness for C8 with a fully empty environment. -/
theorem claim8_missing_api_key_fails_witness :
    clientInit none none none false ⟨none, none, none, none⟩
      = .error "Elsevier API key is required. Set ELSEVIER_API_KEY in .env" :=
  claim8_missing_api_key_fails none none false ⟨none, none, none, none⟩ rfl

/-- C9: the claim states that every failure raised inside
`answer_research_question` is downgraded to a fallback response.  The client
construction at `agent.py` line 119 sits outside the `try` block that begins
at line 131, so a construction failure (e.g. missing API key, or the raising
constructor stub in `tests/test_agent.py::test_answer_research_question_error_handling`)
propagates out of the flow (first conjunct); only a failure of the agent run
is downgraded to the apologetic fallback response with zero articles (second
conjunct). -/
theorem claim9_constructor_failure_propagates :
    answerResearchQuestion none none false ⟨none, none, none, none⟩
        (.ok ⟨"unused", [], "unused"⟩)
      = .error "Elsevier API key is required. Set ELSEVIER_API_KEY in .env" ∧
    answerResearchQuestion (some "test_key") none false ⟨none, none, none, none⟩
        (.error "API Error")
      = .ok ⟨"I encountered an error while researching: API Error", [],
             "Unable to complete the research due to an error."⟩ :=
  ⟨rfl, rfl⟩

/-- C10: whatever error the client call produces, the agent tool wrappers
never propagate it: the search tool returns the empty list and the detail
tool returns `None`. -/
theorem claim10_tools_never_propagate (e : SdError) :
    searchArticlesTool (.error e) = [] ∧ getArticleDetailsTool (.error e) = none :=
  ⟨rfl, rfl⟩

/-- C3: in a search entry, every optional source field that is not present
yields the explicit absent value `None` in the produced `Article`, never the
empty string: the `dict.get` default is `None`, and pydantic keeps `None`
for an `Optional[str]` field. -/
theorem claim3_missing_optional_fields_are_none (fs : List (String × Json)) (a : Article)
    (h : parseSearchResults (entryEnv fs) = .ok [a]) :
    (fs.lookup "prism:teaser" = none → fs.lookup "dc:description" = none → a.abstract = none) ∧
    (fs.lookup "prism:doi" = none → a.doi = none) ∧
    (fs.lookup "pii" = none → a.pii = none) ∧
    (fs.lookup "prism:publicationName" = none → a.publication_name = none) ∧
    (fs.lookup "prism:coverDate" = none → a.publication_date = none) ∧
    (fs.lookup "link" = none → a.url = none) := by
  obtain ⟨u, hu, ht, hau, hab, hdoi, hpii, hpn, hpd, hurl⟩ :=
    parseEntry_ok_fields (parseSearchResults_singleton h)
  refine ⟨fun h1 h2 => ?_, fun h1 => ?_, fun h1 => ?_, fun h1 => ?_, fun h1 => ?_, fun h1 => ?_⟩
  · simp [Json.getD, h1, h2, validateOptStr] at hab
    exact hab.symm
  · simp [Json.getD, h1, validateOptStr] at hdoi
    exact hdoi.symm
  · simp [Json.getD, h1, validateOptStr] at hpii
    exact hpii.symm
  · simp [Json.getD, h1, validateOptStr] at hpn
    exact hpn.symm
  · simp [Json.getD, h1, validateOptStr] at hpd
    exact hpd.symm
  · simp [extractUrl, Json.getD, h1, Json.truthy] at hu
    rw [← hu] at hurl
    simp [validateOptStr] at hurl
    exact hurl.symm

theorem parseArticle_envRaw_abstract {cds : List (String × Json)} {raw : String} {a : Article}
    (h : parseArticle (articleEnvRaw cds raw) = .ok a) :
    validateOptStr (if (raw != "") then Json.str raw
                    else Json.getD cds "dc:description" .null) = .ok a.abstract := by
  have hred : parseArticle (articleEnvRaw cds raw) =
      (match extractUrl cds with
       | .error e => .error e
       | .ok urlRaw =>
         mkArticle (Json.getD cds "dc:title" (.str "No title"))
           (extractAuthorsFromArticle cds)
           (if (Json.str raw).truthy then .str raw else Json.getD cds "dc:description" .null)
           (Json.getD cds "prism:doi" .null)
           (Json.getD cds "pii" .null)
           (Json.getD cds "prism:publicationName" .null)
           (Json.getD cds "prism:coverDate" .null)
           urlRaw) := rfl
  rw [hred] at h
  cases hu : extractUrl cds with
  | error e => rw [hu] at h; simp at h
  | ok u =>
    rw [hu] at h
    have hab := (mkArticle_ok_fields h).2.2.1
    simpa [Json.truthy] using hab

/-- C4: the Article's abstract is determined by trying a first source field
and falling back to a second, and it is absent only when both yield nothing.
Search path: `prism:teaser`, falling back (when the key is absent) to
`dc:description`.  Article path: the `originalText` raw-text field, falling
back (when it is missing or empty, i.e. falsy) to `dc:description` of the
core data. -/
theorem claim4_abstract_two_source_fallback :
    (∀ (fs : List (String × Json)) (s : String) (a : Article),
       fs.lookup "prism:teaser" = some (.str s) →
       parseSearchResults (entryEnv fs) = .ok [a] → a.abstract = some s) ∧
    (∀ (fs : List (String × Json)) (s : String) (a : Article),
       fs.lookup "prism:teaser" = none → fs.lookup "dc:description" = some (.str s) →
       parseSearchResults (entryEnv fs) = .ok [a] → a.abstract = some s) ∧
    (∀ (fs : List (String × Json)) (a : Article),
       fs.lookup "prism:teaser" = none → fs.lookup "dc:description" = none →
       parseSearchResults (entryEnv fs) = .ok [a] → a.abstract = none) ∧
    (∀ (cds : List (String × Json)) (s : String) (a : Article), s ≠ "" →
       parseArticle (articleEnvRaw cds s) = .ok a → a.abstract = some s) ∧
    (∀ (cds : List (String × Json)) (s : String) (a : Article),
       cds.lookup "dc:description" = some (.str s) →
       parseArticle (articleEnvRaw cds "") = .ok a → a.abstract = some s) ∧
    (∀ (cds : List (String × Json)) (a : Article),
       cds.lookup "dc:description" = none →
       parseArticle (articleEnvRaw cds "") = .ok a → a.abstract = none) := by
  refine ⟨?_, ?_, ?_, ?_, ?_, ?_⟩
  · intro fs s a h1 h
    obtain ⟨u, hu, ht, hau, hab, hrest⟩ := parseEntry_ok_fields (parseSearchResults_singleton h)
    simp [Json.getD, h1, validateOptStr] at hab
    exact hab.symm
  · intro fs s a h1 h2 h
    obtain ⟨u, hu, ht, hau, hab, hrest⟩ := parseEntry_ok_fields (parseSearchResults_singleton h)
    simp [Json.getD, h1, h2, validateOptStr] at hab
    exact hab.symm
  · intro fs a h1 h2 h
    obtain ⟨u, hu, ht, hau, hab, hrest⟩ := parseEntry_ok_fields (parseSearchResults_singleton h)
    simp [Json.getD, h1, h2, validateOptStr] at hab
    exact hab.symm
  · intro cds s a hs h
    have hab := parseArticle_envRaw_abstract h
    rw [if_pos (by simp [hs] : (s != "") = true)] at hab
    simp [validateOptStr] at hab
    exact hab.symm
  · intro cds s a h1 h
    have hab := parseArticle_envRaw_abstract h
    rw [if_neg (by simp : ¬ (("" != "") = true))] at hab
    simp [Json.getD, h1, validateOptStr] at hab
    exact hab.symm
  · intro cds a h1 h
    have hab := parseArticle_envRaw_abstract h
    rw [if_neg (by simp : ¬ (("" != "") = true))] at hab
    simp [Json.getD, h1, validateOptStr] at hab
    exact hab.symm

/-- Witness for C4: each of the six fallback scenarios evaluated at a
concrete input (entry with only a teaser; entry with only a description;
empty entry; full-text body with raw text "R"; empty raw text with a
core-data description; empty raw text and no description). -/
theorem claim4_abstract_two_source_fallback_witness :
    Article.abstract ⟨"No title", [], some "T", none, none, none, none, none⟩ = some "T" ∧
    Article.abstract ⟨"No title", [], some "D", none, none, none, none, none⟩ = some "D" ∧
    Article.abstract ⟨"No title", [], none, none, none, none, none, none⟩ = none ∧
    Article.abstract ⟨"No title", [], some "R", none, none, none, none, none⟩ = some "R" ∧
    Article.abstract ⟨"No title", [], some "E", none, none, none, none, none⟩ = some "E" ∧
    Article.abstract ⟨"No title", [], none, none, none, none, none, none⟩ = none := by
  refine ⟨?_, ?_, ?_, ?_, ?_, ?_⟩
  · exact claim4_abstract_two_source_fallback.1
      [("prism:teaser", Json.str "T")] "T" _ rfl rfl
  · exact claim4_abstract_two_source_fallback.2.1
      [("dc:description", Json.str "D")] "D" _ rfl rfl rfl
  · exact claim4_abstract_two_source_fallback.2.2.1 [] _ rfl rfl rfl
  · exact claim4_abstract_two_source_fallback.2.2.2.1 [] "R" _ (by decide) rfl
  · exact claim4_abstract_two_source_fallback.2.2.2.2.1
      [("dc:description", Json.str "E")] "E" _ rfl rfl
  · exact claim4_abstract_two_source_fallback.2.2.2.2.2 [] _ rfl rfl

/-- Witness for C3: the empty entry parses to an Article whose six optional
fields are all the absent value. -/
theorem claim3_missing_optional_fields_are_none_witness :
    Article.abstract ⟨"No title", [], none, none, none, none, none, none⟩ = none ∧
    Article.doi ⟨"No title", [], none, none, none, none, none, none⟩ = none ∧
    Article.pii ⟨"No title", [], none, none, none, none, none, none⟩ = none ∧
    Article.publication_name ⟨"No title", [], none, none, none, none, none, none⟩ = none ∧
    Article.publication_date ⟨"No title", [], none, none, none, none, none, none⟩ = none ∧
    Article.url ⟨"No title", [], none, none, none, none, none, none⟩ = none := by
  have h := claim3_missing_optional_fields_are_none []
    ⟨"No title", [], none, none, none, none, none, none⟩ rfl
  exact ⟨h.1 rfl rfl, h.2.1 rfl, h.2.2.1 rfl, h.2.2.2.1 rfl, h.2.2.2.2.1 rfl, h.2.2.2.2.2 rfl⟩
